import Mathlib

/-!
# Verification of the Optimism block execution strategy

Shallow embedding of `crates/optimism/evm/src/execute.rs` (`OpExecutionStrategy`):
the four block-execution phases `apply_pre_execution_changes`,
`execute_transactions`, `apply_post_execution_changes` and `finish`.

External collaborators (the revm VM, the state store / `State<DB>`, the system
caller and the post-block balance-increment computation) are out of the
repository's scope and are modelled as abstract deterministic functions bundled
in `EvmModel`; everything in `execStep` / `execute_transactions` /
`apply_post_execution_changes` mirrors the control flow of the source line by
line.

Machine integers (`u64` gas values) are modelled as `Nat`.  The one place where
overflow semantics matter is the unsigned subtraction
`block.header.gas_limit - cumulative_gas_used` (execute.rs line 170): when
`cumulative_gas_used > gas_limit` that subtraction underflows in `u64`
arithmetic (a panic under Rust overflow checks).  The model makes that case
explicit as the distinguished outcome `ExecError.gasUnderflow`, so that
reachability of the underflow can be analysed.
-/

/-- Transaction type tags, mirroring `reth_primitives::TxType`. -/
inductive TxType where
  | legacy
  | eip2930
  | eip1559
  | eip4844
  | eip7702
  | deposit
deriving DecidableEq, Repr

/-- The fields of a transaction read by `execute_transactions`:
its type tag, gas limit, the deposit `is_system_transaction` flag
(meaningful only on the Deposit variant) and its hash
(`recalculate_hash`, abstract). -/
structure Transaction where
  txType : TxType
  gas_limit : Nat
  isSystemFlag : Bool
  hash : Nat
deriving DecidableEq, Repr

/-- `TransactionSigned::is_deposit`: the transaction is the Deposit variant. -/
def Transaction.is_deposit (t : Transaction) : Bool :=
  t.txType == TxType.deposit

/-- `is_system_transaction`: the deposit `is_system_transaction` flag;
`false` for every non-deposit variant. -/
def Transaction.is_system_transaction (t : Transaction) : Bool :=
  t.is_deposit && t.isSystemFlag

/-- The part of `AccountInfo` used by the deposit-nonce bookkeeping. -/
structure AccountInfo where
  nonce : Nat
deriving DecidableEq, Repr

/-- `AccountInfo::default()`: nonce 0. -/
def AccountInfo.default : AccountInfo := { nonce := 0 }

/-- The header fields read by the execution strategy. -/
structure Header where
  number : Nat
  timestamp : Nat
  gas_limit : Nat
  parent_beacon_block_root : Option Nat
deriving DecidableEq, Repr

/-- `BlockWithSenders`: a header, the body's transaction list and the
recovered sender list (equal length by construction in the source). -/
structure BlockWithSenders where
  header : Header
  transactions : List Transaction
  senders : List Nat
deriving DecidableEq, Repr

/-- `BlockWithSenders::transactions_with_sender`: zips senders with
transactions, in block order. -/
def BlockWithSenders.transactions_with_sender
    (b : BlockWithSenders) : List (Nat × Transaction) :=
  b.senders.zip b.transactions

/-- The hardfork activation data of `OpChainSpec` queried by the strategy:
a timestamp-activated fork is `some t` (active at `ts` iff `t ≤ ts`) or
`none` (never active); Spurious Dragon is block-number activated. -/
structure OpChainSpec where
  regolithTime : Option Nat
  canyonTime : Option Nat
  spuriousDragonBlock : Option Nat
deriving DecidableEq, Repr

/-- `ForkCondition::active_at_timestamp`: activation time known and `≤ ts`. -/
def forkActiveAt (cond : Option Nat) (x : Nat) : Bool :=
  match cond with
  | some t => t ≤ x
  | none => false

/-- `chain_spec.fork(OptimismHardfork::Regolith).active_at_timestamp(ts)`. -/
def OpChainSpec.isRegolithActive (c : OpChainSpec) (ts : Nat) : Bool :=
  forkActiveAt c.regolithTime ts

/-- `chain_spec.is_fork_active_at_timestamp(OptimismHardfork::Canyon, ts)`. -/
def OpChainSpec.isCanyonActive (c : OpChainSpec) (ts : Nat) : Bool :=
  forkActiveAt c.canyonTime ts

/-- `chain_spec.is_spurious_dragon_active_at_block(number)`. -/
def OpChainSpec.isSpuriousDragonActiveAtBlock (c : OpChainSpec) (n : Nat) : Bool :=
  forkActiveAt c.spuriousDragonBlock n

/-- The VM execution outcome consumed by the receipt builder:
`result.gas_used()`, `result.is_success()`, `result.into_logs()`. -/
structure ExecResult where
  gas_used : Nat
  success : Bool
  logs : List Nat
deriving DecidableEq, Repr

/-- The per-block execution environment (`evm_env_for_block`): derived from
the header and the total difficulty. -/
structure EnvCfg where
  header : Header
  totalDifficulty : Nat
deriving DecidableEq, Repr

/-- The typed errors of the block execution strategy
(`BlockExecutionError` / `OptimismBlockExecutionError` /
`BlockValidationError` constructors reached by this code), plus the
distinguished `gasUnderflow` outcome modelling the `u64` underflow of
`gas_limit - cumulative_gas_used` (see the module docstring). -/
inductive ExecError where
  | beaconRootContractCall (e : Nat)
  | forceCreate2DeployerFail
  | transactionGasLimitMoreThanAvailableBlockGas
      (transaction_gas_limit : Nat) (block_available_gas : Nat)
  | blobTransactionRejected
  | accountLoadFailed (sender : Nat)
  | evm (hash : Nat) (e : Nat)
  | gasUnderflow
  | incrementBalanceFailed
deriving DecidableEq, Repr

/-- Modelled from the spec: the VM (`execute ... deterministic, no side
effects beyond the returned diff`), the store, the system caller and the
post-block balance-increment computation live outside this repository
slice, so they appear here as abstract deterministic functions:
`σ` is the state of the `State<DB>` wrapper, `δ` the VM-produced state diff,
`β` the bundle type.  `loadCacheAccount` models
`State::load_cache_account(addr).map(|acc| acc.account_info())` (absent
account = `ok none`; store read failure = `error`); `transact` models
`evm.transact()` (which does not commit); `commit` models
`db.commit(state)`; the remaining fields model the pre/post/finish phase
collaborators (system caller, create2 deployer, balance increments, bundle). -/
structure EvmModel (σ δ β : Type) where
  setStateClearFlag : σ → Bool → σ
  applyBeaconRootCall : EnvCfg → σ → Nat → Nat → Option Nat → Except Nat σ
  ensureCreate2Deployer : OpChainSpec → Nat → σ → Except Unit σ
  loadCacheAccount : σ → Nat → Except Unit (Option AccountInfo × σ)
  transact : EnvCfg → σ → Nat → Transaction → Except Nat (ExecResult × δ)
  commit : σ → δ → σ
  post_block_balance_increments :
      OpChainSpec → BlockWithSenders → Nat → List (Nat × Nat)
  increment_balances : σ → List (Nat × Nat) → Except Unit σ
  mergeTransitionsTakeBundle : σ → β × σ

/-- `reth_primitives::Receipt` as built by `execute_transactions`. -/
structure Receipt where
  tx_type : TxType
  success : Bool
  cumulative_gas_used : Nat
  logs : List Nat
  deposit_nonce : Option Nat
  deposit_receipt_version : Option Nat
deriving DecidableEq, Repr

/-- The depositor snapshot of execute.rs lines 191–198:
`(is_regolith && transaction.is_deposit()).then(|| load_cache_account(sender)
.map(|acc| acc.account_info().unwrap_or_default())).transpose()
.map_err(|_| AccountLoadFailed(sender))`.  Returns the snapshot (if taken)
and the possibly-updated state. -/
def cacheDepositor {σ δ β : Type} (m : EvmModel σ δ β) (is_regolith : Bool)
    (tx : Transaction) (s : σ) (sender : Nat) :
    Except ExecError (Option AccountInfo × σ) :=
  if is_regolith && tx.is_deposit then
    match m.loadCacheAccount s sender with
    | .error _ => .error (.accountLoadFailed sender)
    | .ok (acc, s₁) => .ok (some (acc.getD AccountInfo.default), s₁)
  else .ok (none, s)

/-- The body of the `for (sender, transaction)` loop of
`execute_transactions` for one transaction, given the cumulative gas used so
far and the current state.  Mirrors execute.rs lines 168–240: available-gas
computation (with the `u64` underflow made explicit), the gas-limit check
with the pre-Regolith system-transaction exemption, the EIP-4844 rejection,
the depositor snapshot (`unwrap_or_default` on an absent account), VM
execution with the EVM-error wrapping, commit, gas accumulation and the
receipt construction. -/
def execStep {σ δ β : Type} (spec : OpChainSpec) (m : EvmModel σ δ β)
    (env : EnvCfg) (cum : Nat) (s : σ) (sender : Nat) (tx : Transaction) :
    Except ExecError (Receipt × Nat × σ) :=
  let is_regolith := spec.isRegolithActive env.header.timestamp
  if env.header.gas_limit < cum then
    .error .gasUnderflow
  else
    let block_available_gas := env.header.gas_limit - cum
    if decide (block_available_gas < tx.gas_limit) &&
        (is_regolith || !tx.is_system_transaction) then
      .error (.transactionGasLimitMoreThanAvailableBlockGas
        tx.gas_limit block_available_gas)
    else if tx.txType == TxType.eip4844 then
      .error .blobTransactionRejected
    else
      match cacheDepositor m is_regolith tx s sender with
      | .error e => .error e
      | .ok (depositor, s₁) =>
        match m.transact env s₁ sender tx with
        | .error e => .error (.evm tx.hash e)
        | .ok (result, st) =>
          .ok ({ tx_type := tx.txType
               , success := result.success
               , cumulative_gas_used := cum + result.gas_used
               , logs := result.logs
               , deposit_nonce := depositor.map (fun a => a.nonce)
               , deposit_receipt_version :=
                   if tx.is_deposit && spec.isCanyonActive env.header.timestamp
                   then some 1 else none }, cum + result.gas_used, m.commit s₁ st)

/-- The transaction loop of `execute_transactions`: folds `execStep` over the
`(sender, transaction)` pairs in block order, threading the cumulative gas
used and the state, collecting receipts, and aborting at the first error. -/
def execLoop {σ δ β : Type} (spec : OpChainSpec) (m : EvmModel σ δ β)
    (env : EnvCfg) : Nat → σ → List (Nat × Transaction) →
    Except ExecError (List Receipt × Nat × σ)
  | cum, s, [] => .ok ([], cum, s)
  | cum, s, (sender, tx) :: rest =>
    match execStep spec m env cum s sender tx with
    | .error e => .error e
    | .ok (r, cum', s') =>
      match execLoop spec m env cum' s' rest with
      | .error e => .error e
      | .ok (rs, total, s'') => .ok (r :: rs, total, s'')

/-- `execute_transactions` (execute.rs lines 154–244): builds the block
environment, iterates the block's `(sender, transaction)` pairs from
`cumulative_gas_used = 0`, and on full success returns the receipts, the
total gas used and the post-loop state. -/
def execute_transactions {σ δ β : Type} (spec : OpChainSpec)
    (m : EvmModel σ δ β) (block : BlockWithSenders) (total_difficulty : Nat)
    (s : σ) : Except ExecError (List Receipt × Nat × σ) :=
  execLoop spec m { header := block.header, totalDifficulty := total_difficulty }
    0 s block.transactions_with_sender

/-- `apply_pre_execution_changes` (execute.rs lines 124–152): sets the state
clear flag from the Spurious Dragon activation at the block number, applies
the beacon-root system call, and force-deploys the create2 deployer
(failure mapped to `ForceCreate2DeployerFail`). -/
def apply_pre_execution_changes {σ δ β : Type} (spec : OpChainSpec)
    (m : EvmModel σ δ β) (block : BlockWithSenders) (total_difficulty : Nat)
    (s : σ) : Except ExecError σ :=
  let state_clear_flag := spec.isSpuriousDragonActiveAtBlock block.header.number
  let s₀ := m.setStateClearFlag s state_clear_flag
  let env : EnvCfg := { header := block.header, totalDifficulty := total_difficulty }
  match m.applyBeaconRootCall env s₀ block.header.timestamp block.header.number
      block.header.parent_beacon_block_root with
  | .error e => .error (.beaconRootContractCall e)
  | .ok s₁ =>
    match m.ensureCreate2Deployer spec block.header.timestamp s₁ with
    | .error _ => .error .forceCreate2DeployerFail
    | .ok s₂ => .ok s₂

/-- `apply_post_execution_changes` (execute.rs lines 246–260): computes the
post-block balance increments from chain spec, block and total difficulty,
applies them via `increment_balances` (failure mapped to
`IncrementBalanceFailed`), and returns the default (empty) `Requests`. -/
def apply_post_execution_changes {σ δ β : Type} (spec : OpChainSpec)
    (m : EvmModel σ δ β) (block : BlockWithSenders) (total_difficulty : Nat)
    (s : σ) : Except ExecError (List Nat × σ) :=
  let balance_increments :=
    m.post_block_balance_increments spec block total_difficulty
  match m.increment_balances s balance_increments with
  | .error _ => .error .incrementBalanceFailed
  | .ok s₁ => .ok ([], s₁)

/-- `finish` (execute.rs lines 274–277): merges transitions with revert
retention and takes the bundle. -/
def finish {σ δ β : Type} (m : EvmModel σ δ β) (s : σ) : β × σ :=
  m.mergeTransitionsTakeBundle s

/-- One full driver run: the four phases called once each, in order, on a
block and a starting state.  Returns the receipts, total gas used, requests
and bundle on success. -/
def runBlock {σ δ β : Type} (spec : OpChainSpec) (m : EvmModel σ δ β)
    (block : BlockWithSenders) (total_difficulty : Nat) (s : σ) :
    Except ExecError (List Receipt × Nat × List Nat × β × σ) :=
  match apply_pre_execution_changes spec m block total_difficulty s with
  | .error e => .error e
  | .ok s₁ =>
    match execute_transactions spec m block total_difficulty s₁ with
    | .error e => .error e
    | .ok (receipts, gas_used, s₂) =>
      match apply_post_execution_changes spec m block total_difficulty s₂ with
      | .error e => .error e
      | .ok (requests, s₃) =>
        let (bundle, s₄) := finish m s₃
        .ok (receipts, gas_used, requests, bundle, s₄)

/-- A concrete instantiation of the collaborators, used to evaluate the
embedding on concrete blocks: the state is a bare `Nat`, every account is
absent from the store (loads succeed with `none`), and the VM always
succeeds, emits no logs and charges exactly the transaction's gas limit. -/
def simpleModel : EvmModel Nat Nat Nat where
  setStateClearFlag s _ := s
  applyBeaconRootCall _ s _ _ _ := .ok s
  ensureCreate2Deployer _ _ s := .ok s
  loadCacheAccount s _ := .ok (none, s)
  transact _ s _ tx := .ok ({ gas_used := tx.gas_limit, success := true, logs := [] }, s)
  commit _ d := d
  post_block_balance_increments _ _ _ := []
  increment_balances s _ := .ok s
  mergeTransitionsTakeBundle s := (s, s)

/-- `simpleModel` with a failing `increment_balances`. -/
def incFailModel : EvmModel Nat Nat Nat :=
  { simpleModel with increment_balances := fun _ _ => .error () }

/-- A chain spec with Regolith, Canyon and Spurious Dragon active from 0. -/
def specAllActive : OpChainSpec :=
  { regolithTime := some 0, canyonTime := some 0, spuriousDragonBlock := some 0 }

/-- A chain spec with no hardfork active (pre-Regolith, pre-Canyon). -/
def specPreForks : OpChainSpec :=
  { regolithTime := none, canyonTime := none, spuriousDragonBlock := none }

/-- A concrete header: block 1, timestamp 5, gas limit 100. -/
def headerW : Header :=
  { number := 1, timestamp := 5, gas_limit := 100, parent_beacon_block_root := none }

/-- The block environment for `headerW` with total difficulty 0. -/
def envW : EnvCfg := { header := headerW, totalDifficulty := 0 }

/-- A concrete EIP-1559 transaction with gas limit 21. -/
def tx1559W : Transaction :=
  { txType := TxType.eip1559, gas_limit := 21, isSystemFlag := false, hash := 11 }

/-- A concrete (non-system) deposit transaction with gas limit 10. -/
def txDepW : Transaction :=
  { txType := TxType.deposit, gas_limit := 10, isSystemFlag := false, hash := 12 }

/-- A transaction whose gas limit 101 exceeds `headerW`'s block gas limit. -/
def txBigW : Transaction :=
  { txType := TxType.eip1559, gas_limit := 101, isSystemFlag := false, hash := 13 }

/-- An EIP-4844 (blob) transaction whose gas limit 101 exceeds `headerW`'s
block gas limit. -/
def txBlobBigW : Transaction :=
  { txType := TxType.eip4844, gas_limit := 101, isSystemFlag := false, hash := 14 }

/-- An EIP-4844 (blob) transaction with a small gas limit. -/
def txBlobW : Transaction :=
  { txType := TxType.eip4844, gas_limit := 9, isSystemFlag := false, hash := 15 }

/-- A system deposit transaction with gas limit 200, twice `headerW`'s block
gas limit. -/
def txSysBigW : Transaction :=
  { txType := TxType.deposit, gas_limit := 200, isSystemFlag := true, hash := 16 }

/-- A concrete well-formed block: one EIP-1559 and one deposit transaction. -/
def blockW : BlockWithSenders :=
  { header := headerW, transactions := [tx1559W, txDepW], senders := [5, 6] }

/-- A block whose single transaction is a blob transaction whose gas limit
exceeds the block gas limit. -/
def blockBlobBigW : BlockWithSenders :=
  { header := headerW, transactions := [txBlobBigW], senders := [5] }

/-- A block with an oversized system deposit transaction followed by an
ordinary transaction. -/
def blockSysW : BlockWithSenders :=
  { header := headerW, transactions := [txSysBigW, tx1559W], senders := [5, 6] }

/-- The receipt produced for `txDepW` at cumulative gas 0 under
`specAllActive` and `simpleModel`. -/
def rDepW : Receipt :=
  { tx_type := TxType.deposit, success := true, cumulative_gas_used := 10,
    logs := [], deposit_nonce := some 0, deposit_receipt_version := some 1 }

/-- The receipt produced for `tx1559W` at cumulative gas 0 under
`specAllActive` and `simpleModel`. -/
def r1559W : Receipt :=
  { tx_type := TxType.eip1559, success := true, cumulative_gas_used := 21,
    logs := [], deposit_nonce := none, deposit_receipt_version := none }

/-- The receipt produced for `txDepW` at cumulative gas 21 under
`specAllActive` and `simpleModel`. -/
def rDep21W : Receipt :=
  { tx_type := TxType.deposit, success := true, cumulative_gas_used := 31,
    logs := [], deposit_nonce := some 0, deposit_receipt_version := some 1 }

/-! ## Helper lemmas -/

/-- Full inversion of a successful `execStep`: the checks passed, the
depositor snapshot and the VM call succeeded, and the receipt, new
cumulative gas and new state are exactly the ones built at execute.rs
lines 221–240. -/
theorem execStep_ok_elim {σ δ β : Type} {spec : OpChainSpec} {m : EvmModel σ δ β}
    {env : EnvCfg} {cum : Nat} {s : σ} {sender : Nat} {tx : Transaction}
    {r : Receipt} {c : Nat} {s₂ : σ}
    (h : execStep spec m env cum s sender tx = .ok (r, c, s₂)) :
    ∃ depositor s₁ result st,
      cacheDepositor m (spec.isRegolithActive env.header.timestamp) tx s sender
          = .ok (depositor, s₁) ∧
      m.transact env s₁ sender tx = .ok (result, st) ∧
      tx.txType ≠ TxType.eip4844 ∧
      r = { tx_type := tx.txType, success := result.success,
            cumulative_gas_used := cum + result.gas_used, logs := result.logs,
            deposit_nonce := depositor.map (fun a => a.nonce),
            deposit_receipt_version :=
              if tx.is_deposit && spec.isCanyonActive env.header.timestamp
              then some 1 else none } ∧
      c = cum + result.gas_used ∧ s₂ = m.commit s₁ st := by
  simp only [execStep] at h
  split at h
  · cases h
  split at h
  · cases h
  split at h
  · cases h
  split at h
  · cases h
  rename_i hblob _ depositor s₁ hdep
  split at h
  · cases h
  rename_i result st htr
  simp only [Except.ok.injEq, Prod.mk.injEq] at h
  obtain ⟨h1, h2, h3⟩ := h
  refine ⟨depositor, s₁, result, st, hdep, htr, ?_, h1.symm, h2.symm, h3.symm⟩
  intro hx
  simp [hx] at hblob

/-- A successful `execStep` never happens on an EIP-4844 transaction. -/
theorem execStep_ok_not_blob {σ δ β : Type} {spec : OpChainSpec}
    {m : EvmModel σ δ β} {env : EnvCfg} {cum : Nat} {s : σ} {sender : Nat}
    {tx : Transaction} {out : Receipt × Nat × σ}
    (h : execStep spec m env cum s sender tx = .ok out) :
    tx.txType ≠ TxType.eip4844 := by
  obtain ⟨r, c, s₂⟩ := out
  obtain ⟨_, _, _, _, _, _, hb, _⟩ := execStep_ok_elim h
  exact hb

/-- Along a successful `execLoop` run, the cumulative-gas column prefixed
with the starting value is a non-decreasing chain whose last entry is the
returned total. -/
theorem execLoop_ok_gas_chain {σ δ β : Type} {spec : OpChainSpec}
    {m : EvmModel σ δ β} {env : EnvCfg} :
    ∀ {l : List (Nat × Transaction)} {cum : Nat} {s : σ} {rs : List Receipt}
      {total : Nat} {s' : σ},
      execLoop spec m env cum s l = .ok (rs, total, s') →
      List.Chain' (· ≤ ·) (cum :: rs.map (·.cumulative_gas_used)) ∧
      (cum :: rs.map (·.cumulative_gas_used)).getLast? = some total
  | [], cum, s, rs, total, s' => by
    intro h
    simp only [execLoop, Except.ok.injEq, Prod.mk.injEq] at h
    obtain ⟨h1, h2, _⟩ := h
    subst h1 h2
    simp
  | (sender, tx) :: rest, cum, s, rs, total, s' => by
    intro h
    simp only [execLoop] at h
    split at h
    · cases h
    rename_i r cum' s₁ hstep
    split at h
    · cases h
    rename_i rs' total' s'' hloop
    simp only [Except.ok.injEq, Prod.mk.injEq] at h
    obtain ⟨h1, h2, h3⟩ := h
    subst h1 h2 h3
    obtain ⟨ih1, ih2⟩ := execLoop_ok_gas_chain hloop
    obtain ⟨_, _, result, _, _, _, _, hr, hc, _⟩ := execStep_ok_elim hstep
    subst hr hc
    constructor
    · rw [List.map_cons]
      refine List.chain'_cons.mpr ⟨by simp, ?_⟩
      simpa using ih1
    · rw [List.map_cons, List.getLast?_cons_cons]
      simpa using ih2

/-- Along a successful `execLoop` run there is one receipt per input pair,
and the i-th receipt records the i-th transaction's type. -/
theorem execLoop_ok_shape {σ δ β : Type} {spec : OpChainSpec}
    {m : EvmModel σ δ β} {env : EnvCfg} :
    ∀ {l : List (Nat × Transaction)} {cum : Nat} {s : σ} {rs : List Receipt}
      {total : Nat} {s' : σ},
      execLoop spec m env cum s l = .ok (rs, total, s') →
      rs.length = l.length ∧
      ∀ (i : Nat) (hi : i < rs.length) (hj : i < l.length),
        (rs.get ⟨i, hi⟩).tx_type = (l.get ⟨i, hj⟩).2.txType
  | [], cum, s, rs, total, s' => by
    intro h
    simp only [execLoop, Except.ok.injEq, Prod.mk.injEq] at h
    obtain ⟨h1, _, _⟩ := h
    subst h1
    exact ⟨rfl, fun i hi hj => absurd hj (by simp)⟩
  | (sender, tx) :: rest, cum, s, rs, total, s' => by
    intro h
    simp only [execLoop] at h
    split at h
    · cases h
    rename_i r cum' s₁ hstep
    split at h
    · cases h
    rename_i rs' total' s'' hloop
    simp only [Except.ok.injEq, Prod.mk.injEq] at h
    obtain ⟨h1, _, _⟩ := h
    subst h1
    obtain ⟨ihlen, ihty⟩ := execLoop_ok_shape hloop
    obtain ⟨_, _, result, _, _, _, _, hr, _, _⟩ := execStep_ok_elim hstep
    refine ⟨by simpa using ihlen, fun i hi hj => ?_⟩
    match i with
    | 0 => subst hr; rfl
    | Nat.succ k =>
      exact ihty k (by simpa using hi) (by simpa using hj)

/-- A successful `execLoop` run contains no EIP-4844 transaction. -/
theorem execLoop_ok_no_blob {σ δ β : Type} {spec : OpChainSpec}
    {m : EvmModel σ δ β} {env : EnvCfg} :
    ∀ {l : List (Nat × Transaction)} {cum : Nat} {s : σ}
      {out : List Receipt × Nat × σ},
      execLoop spec m env cum s l = .ok out →
      ∀ p ∈ l, p.2.txType ≠ TxType.eip4844
  | [], cum, s, out => by
    intro _ p hp
    cases hp
  | (sender, tx) :: rest, cum, s, out => by
    intro h p hp
    simp only [execLoop] at h
    split at h
    · cases h
    rename_i r cum' s₁ hstep
    split at h
    · cases h
    rename_i rs' total' s'' hloop
    rcases List.mem_cons.mp hp with hp | hp
    · subst hp
      exact execStep_ok_not_blob hstep
    · exact execLoop_ok_no_blob hloop p hp

/-- The second component of the i-th entry of a zip is the i-th entry of the
second list. -/
theorem zipGetSnd {α γ : Type} :
    ∀ (as : List α) (bs : List γ) (i : Nat)
      (hi : i < (as.zip bs).length) (hj : i < bs.length),
      ((as.zip bs).get ⟨i, hi⟩).2 = bs.get ⟨i, hj⟩
  | _ :: as, _ :: bs, 0, _, _ => rfl
  | _ :: as, _ :: bs, Nat.succ k, hi, hj =>
    zipGetSnd as bs k (by simpa using hi) (by simpa using hj)

/-- Every member of the second list of a zip of equal-length lists appears as
the second component of a zip member. -/
theorem mem_zip_of_mem_right {α γ : Type} :
    ∀ {as : List α} {bs : List γ}, as.length = bs.length →
      ∀ {b : γ}, b ∈ bs → ∃ a, (a, b) ∈ as.zip bs
  | [], [], _, b, hb => absurd hb (by simp)
  | a :: as, b' :: bs, hlen, b, hb => by
    rcases List.mem_cons.mp hb with hb | hb
    · exact ⟨a, by simp [hb]⟩
    · obtain ⟨a', ha'⟩ := mem_zip_of_mem_right (by simpa using hlen) hb
      exact ⟨a', List.mem_cons_of_mem _ ha'⟩

/-- The only error `cacheDepositor` can produce is `AccountLoadFailed` for
the given sender, and only when the underlying store read itself fails. -/
theorem cacheDepositor_error_shape {σ δ β : Type} {m : EvmModel σ δ β}
    {is_regolith : Bool} {tx : Transaction} {s : σ} {sender : Nat}
    {e : ExecError}
    (h : cacheDepositor m is_regolith tx s sender = .error e) :
    e = .accountLoadFailed sender ∧ m.loadCacheAccount s sender = .error () := by
  unfold cacheDepositor at h
  split at h
  · split at h
    · rename_i heq
      simp only [Except.error.injEq] at h
      exact ⟨h.symm, heq⟩
    · cases h
  · cases h

/-- An `AccountLoadFailed` error out of `execStep` names the sender and can
only come from a failing store read in the depositor snapshot (which is
taken only for Regolith-active deposit transactions). -/
theorem execStep_accountLoadFailed_elim {σ δ β : Type} {spec : OpChainSpec}
    {m : EvmModel σ δ β} {env : EnvCfg} {cum : Nat} {s : σ} {sender : Nat}
    {tx : Transaction} {a : Nat}
    (h : execStep spec m env cum s sender tx = .error (.accountLoadFailed a)) :
    a = sender ∧ m.loadCacheAccount s sender = .error () := by
  simp only [execStep] at h
  split at h
  · cases h
  split at h
  · simp at h
  split at h
  · simp at h
  split at h
  · rename_i e hdep
    simp only [Except.error.injEq] at h
    subst h
    obtain ⟨he, hload⟩ := cacheDepositor_error_shape hdep
    cases he
    exact ⟨rfl, hload⟩
  split at h
  · simp at h
  · cases h

/-- C1: in the transaction loop, with `available = block.gas_limit -
cumulative_gas_used`, a transaction whose gas limit exceeds `available` makes
the call fail with `TransactionGasLimitMoreThanAvailableBlockGas` carrying
the transaction's gas limit and the available gas, whenever Regolith is
active at the block timestamp or the transaction is not a system
transaction; a pre-Regolith system transaction is exempt from this check
and can never produce that error in its own step. -/
theorem C1_gas_limit_check {σ δ β : Type} (spec : OpChainSpec)
    (m : EvmModel σ δ β) (env : EnvCfg) (cum : Nat) (s : σ) (sender : Nat)
    (tx : Transaction) (rest : List (Nat × Transaction))
    (hcum : cum ≤ env.header.gas_limit) :
    (env.header.gas_limit - cum < tx.gas_limit →
      (spec.isRegolithActive env.header.timestamp = true ∨
        tx.is_system_transaction = false) →
      execLoop spec m env cum s ((sender, tx) :: rest) =
        .error (.transactionGasLimitMoreThanAvailableBlockGas tx.gas_limit
          (env.header.gas_limit - cum))) ∧
    (spec.isRegolithActive env.header.timestamp = false →
      tx.is_system_transaction = true →
      ∀ g a, execStep spec m env cum s sender tx ≠
        .error (.transactionGasLimitMoreThanAvailableBlockGas g a)) := by
  constructor
  · intro hgt hcond
    have hc : (decide (env.header.gas_limit - cum < tx.gas_limit) &&
        (spec.isRegolithActive env.header.timestamp ||
          !tx.is_system_transaction)) = true := by
      rcases hcond with h | h <;> simp [hgt, h]
    simp only [execLoop, execStep]
    rw [if_neg (Nat.not_lt.mpr hcum), if_pos hc]
  · intro hreg hsys g a hEq
    simp only [execStep] at hEq
    rw [if_neg (Nat.not_lt.mpr hcum)] at hEq
    have hc : (decide (env.header.gas_limit - cum < tx.gas_limit) &&
        (spec.isRegolithActive env.header.timestamp ||
          !tx.is_system_transaction)) = false := by
      simp [hreg, hsys]
    rw [hc] at hEq
    rw [if_neg (by simp)] at hEq
    split at hEq
    · simp at hEq
    split at hEq
    · rename_i e hdep
      simp only [Except.error.injEq] at hEq
      subst hEq
      obtain ⟨he, _⟩ := cacheDepositor_error_shape hdep
      cases he
    split at hEq
    · simp at hEq
    · cases hEq

/-- Witness for C1: with Regolith active, a single transaction with gas
limit 101 against block gas limit 100 fails with the gas-limit error. -/
theorem C1_gas_limit_check_witness :
    execLoop specAllActive simpleModel envW 0 0 [(5, txBigW)] =
      .error (.transactionGasLimitMoreThanAvailableBlockGas 101 100) :=
  (C1_gas_limit_check specAllActive simpleModel envW 0 0 5 txBigW []
    (by decide)).1 (by decide) (Or.inl (by decide))

/-- C2: for a transaction successfully executed by the loop body, the
receipt's `deposit_nonce` is `none` unless Regolith is active at the block
timestamp and the transaction is a deposit, in which case it is `some n`
with `n` the nonce of the sender account loaded (with default on absence)
before the transaction was executed. -/
theorem C2_deposit_nonce {σ δ β : Type} (spec : OpChainSpec)
    (m : EvmModel σ δ β) (env : EnvCfg) (cum : Nat) (s : σ) (sender : Nat)
    (tx : Transaction) (r : Receipt) (c : Nat) (s₂ : σ)
    (h : execStep spec m env cum s sender tx = .ok (r, c, s₂)) :
    ((spec.isRegolithActive env.header.timestamp = false ∨
        tx.is_deposit = false) → r.deposit_nonce = none) ∧
    (spec.isRegolithActive env.header.timestamp = true →
      tx.is_deposit = true →
      ∃ acc s₁, m.loadCacheAccount s sender = .ok (acc, s₁) ∧
        r.deposit_nonce = some ((acc.getD AccountInfo.default).nonce)) := by
  obtain ⟨depositor, s₁, result, st, hdep, htr, hblob, hr, hc, hs⟩ :=
    execStep_ok_elim h
  subst hr
  constructor
  · intro hcond
    unfold cacheDepositor at hdep
    rw [if_neg (by rcases hcond with h' | h' <;> simp [h'])] at hdep
    simp only [Except.ok.injEq, Prod.mk.injEq] at hdep
    obtain ⟨h1, _⟩ := hdep
    simp [← h1]
  · intro hreg hisdep
    unfold cacheDepositor at hdep
    rw [if_pos (by simp [hreg, hisdep])] at hdep
    split at hdep
    · cases hdep
    rename_i acc s₃ hload
    simp only [Except.ok.injEq, Prod.mk.injEq] at hdep
    obtain ⟨h1, h2⟩ := hdep
    exact ⟨acc, s₃, hload, by simp [← h1]⟩

/-- Witness for C2: executing the deposit transaction `txDepW` with Regolith
active over an absent sender account yields a receipt whose
`deposit_nonce` is the loaded (default) account's nonce. -/
theorem C2_deposit_nonce_witness :
    ∃ acc s₁, simpleModel.loadCacheAccount 0 6 = .ok (acc, s₁) ∧
      rDepW.deposit_nonce = some ((acc.getD AccountInfo.default).nonce) :=
  (C2_deposit_nonce specAllActive simpleModel envW 0 0 6 txDepW rDepW 10 0
    rfl).2 (by decide) (by decide)

/-- C3: for every transaction successfully executed by the loop body, the
receipt's `deposit_receipt_version` is `some 1` iff the transaction is a
deposit and Canyon is active at the block timestamp; otherwise `none`. -/
theorem C3_deposit_receipt_version {σ δ β : Type} (spec : OpChainSpec)
    (m : EvmModel σ δ β) (env : EnvCfg) (cum : Nat) (s : σ) (sender : Nat)
    (tx : Transaction) (r : Receipt) (c : Nat) (s₂ : σ)
    (h : execStep spec m env cum s sender tx = .ok (r, c, s₂)) :
    (r.deposit_receipt_version = some 1 ↔
      (tx.is_deposit = true ∧ spec.isCanyonActive env.header.timestamp = true)) ∧
    ((tx.is_deposit = false ∨ spec.isCanyonActive env.header.timestamp = false) →
      r.deposit_receipt_version = none) := by
  obtain ⟨depositor, s₁, result, st, hdep, htr, hblob, hr, hc, hs⟩ :=
    execStep_ok_elim h
  subst hr
  cases hd : tx.is_deposit <;>
    cases hcy : spec.isCanyonActive env.header.timestamp <;>
      simp [hd, hcy]

/-- Witness for C3: the receipt of the deposit transaction `txDepW` executed
with Canyon active has `deposit_receipt_version = some 1`. -/
theorem C3_deposit_receipt_version_witness :
    rDepW.deposit_receipt_version = some 1 :=
  ((C3_deposit_receipt_version specAllActive simpleModel envW 0 0 6 txDepW
    rDepW 10 0 rfl).1).mpr ⟨by decide, by decide⟩

/-- C10: with Regolith active and a deposit transaction, a load that
succeeds with an absent account does not produce `AccountLoadFailed` and a
successful execution gives `deposit_nonce = some 0` (the default account's
nonce); `AccountLoadFailed` (naming the sender) arises only when the
underlying store read itself fails. -/
theorem C10_absent_account {σ δ β : Type} (spec : OpChainSpec)
    (m : EvmModel σ δ β) (env : EnvCfg) (cum : Nat) (s : σ) (sender : Nat)
    (tx : Transaction)
    (hreg : spec.isRegolithActive env.header.timestamp = true)
    (hisdep : tx.is_deposit = true) :
    (∀ s₁, m.loadCacheAccount s sender = .ok (none, s₁) →
      (∀ a, execStep spec m env cum s sender tx ≠
        .error (.accountLoadFailed a)) ∧
      (∀ r c s₂, execStep spec m env cum s sender tx = .ok (r, c, s₂) →
        r.deposit_nonce = some 0)) ∧
    (∀ a, execStep spec m env cum s sender tx =
        .error (.accountLoadFailed a) →
      a = sender ∧ m.loadCacheAccount s sender = .error ()) := by
  constructor
  · intro s₁ hload
    constructor
    · intro a hfail
      obtain ⟨_, hbad⟩ := execStep_accountLoadFailed_elim hfail
      rw [hload] at hbad
      cases hbad
    · intro r c s₂ hok
      obtain ⟨depositor, s₃, result, st, hdep, _, _, hr, _, _⟩ :=
        execStep_ok_elim hok
      subst hr
      unfold cacheDepositor at hdep
      rw [if_pos (by simp [hreg, hisdep])] at hdep
      rw [hload] at hdep
      simp only [Except.ok.injEq, Prod.mk.injEq] at hdep
      obtain ⟨h1, _⟩ := hdep
      simp [← h1, AccountInfo.default]
  · intro a hfail
    exact execStep_accountLoadFailed_elim hfail

/-- Witness for C10: with `simpleModel` (absent accounts), executing the
deposit transaction `txDepW` yields `deposit_nonce = some 0`. -/
theorem C10_absent_account_witness : rDepW.deposit_nonce = some 0 :=
  ((C10_absent_account specAllActive simpleModel envW 0 0 6 txDepW
    (by decide) (by decide)).1 0 rfl).2 rDepW 10 0 rfl

/-- Counterexample for C4: `blockBlobBigW` contains a blob (EIP-4844)
transaction, yet `execute_transactions` fails with the gas-limit error, not
`BlobTransactionRejected`, because the gas-limit check at execute.rs
line 171 runs before the blob check at line 182 and the blob transaction's
gas limit (101) exceeds the block gas limit (100). -/
theorem C4_blob_counterexample :
    (blockBlobBigW.transactions.any (fun t => t.txType == TxType.eip4844))
      = true ∧
    execute_transactions specAllActive simpleModel blockBlobBigW 0 0 =
      .error (.transactionGasLimitMoreThanAvailableBlockGas 101 100) ∧
    execute_transactions specAllActive simpleModel blockBlobBigW 0 0 ≠
      .error .blobTransactionRejected := by
  refine ⟨by decide, rfl, fun h => ?_⟩
  rw [show execute_transactions specAllActive simpleModel blockBlobBigW 0 0 =
    .error (.transactionGasLimitMoreThanAvailableBlockGas 101 100) from rfl] at h
  exact absurd (Except.error.inj h) (by decide)

/-- C4 (amended): a block containing a blob (EIP-4844) transaction never
executes successfully, regardless of hardforks; and when the blob
transaction is reached with the gas-limit check passing, the error is
exactly `BlobTransactionRejected`.  (As the counterexample shows, an
earlier failure — e.g. the gas-limit check — can surface a different
error.) -/
theorem C4_blob_amended {σ δ β : Type} (spec : OpChainSpec)
    (m : EvmModel σ δ β) :
    (∀ (block : BlockWithSenders) (td : Nat) (s : σ),
      block.senders.length = block.transactions.length →
      (∃ t ∈ block.transactions, t.txType = TxType.eip4844) →
      ∀ out, execute_transactions spec m block td s ≠ .ok out) ∧
    (∀ (env : EnvCfg) (cum : Nat) (s : σ) (sender : Nat) (tx : Transaction)
      (rest : List (Nat × Transaction)),
      cum ≤ env.header.gas_limit →
      tx.txType = TxType.eip4844 →
      tx.gas_limit ≤ env.header.gas_limit - cum →
      execLoop spec m env cum s ((sender, tx) :: rest) =
        .error .blobTransactionRejected) := by
  constructor
  · rintro block td s hlen ⟨t, ht, htype⟩ out h
    obtain ⟨a, ha⟩ := mem_zip_of_mem_right hlen ht
    exact execLoop_ok_no_blob h (a, t) ha htype
  · intro env cum s sender tx rest hcum htype hgas
    have hstep : execStep spec m env cum s sender tx =
        .error .blobTransactionRejected := by
      simp only [execStep]
      rw [if_neg (Nat.not_lt.mpr hcum)]
      rw [if_neg (by simp [Nat.not_lt.mpr hgas])]
      rw [if_pos (by simp [htype])]
    simp only [execLoop, hstep]

/-- Witness for C4 (amended): a small blob transaction that passes the
gas-limit check is rejected with `BlobTransactionRejected`. -/
theorem C4_blob_amended_witness :
    execLoop specAllActive simpleModel envW 0 0 [(5, txBlobW)] =
      .error .blobTransactionRejected :=
  (C4_blob_amended specAllActive simpleModel).2 envW 0 0 5 txBlobW []
    (by decide) rfl (by decide)

/-- C5: on a successful `execute_transactions` run, the cumulative gas
column of the receipts is non-decreasing, the last receipt's
`cumulative_gas_used` equals the returned total, and an empty receipt list
means a zero total. -/
theorem C5_cumulative_gas {σ δ β : Type} (spec : OpChainSpec)
    (m : EvmModel σ δ β) (block : BlockWithSenders) (td : Nat) (s : σ)
    (rs : List Receipt) (total : Nat) (s' : σ)
    (h : execute_transactions spec m block td s = .ok (rs, total, s')) :
    List.Chain' (· ≤ ·) (rs.map (·.cumulative_gas_used)) ∧
    (rs = [] → total = 0) ∧
    (∀ hne : rs ≠ [], (rs.getLast hne).cumulative_gas_used = total) := by
  obtain ⟨hchain, hlast⟩ := execLoop_ok_gas_chain h
  refine ⟨(List.chain'_cons'.mp hchain).2, ?_, ?_⟩
  · intro hrs
    subst hrs
    simp only [List.map_nil, List.getLast?_singleton, Option.some.injEq] at hlast
    exact hlast.symm
  · intro hne
    have hmapne : rs.map (·.cumulative_gas_used) ≠ [] := by
      simp [hne]
    obtain ⟨r0, rs', hcons⟩ := List.exists_cons_of_ne_nil hmapne
    rw [hcons, List.getLast?_cons_cons] at hlast
    rw [← hcons] at hlast
    rw [List.getLast?_map, List.getLast?_eq_getLast rs hne] at hlast
    simpa using hlast

/-- Witness for C5: the successful two-transaction run on `blockW` has
non-decreasing cumulative gas, and the last receipt's cumulative gas equals
the returned total 31. -/
theorem C5_cumulative_gas_witness :
    List.Chain' (· ≤ ·)
      (([r1559W, rDep21W] : List Receipt).map (·.cumulative_gas_used)) ∧
    (([r1559W, rDep21W] : List Receipt) = [] → 31 = 0) ∧
    (∀ hne : ([r1559W, rDep21W] : List Receipt) ≠ [],
      (([r1559W, rDep21W] : List Receipt).getLast hne).cumulative_gas_used
        = 31) :=
  C5_cumulative_gas specAllActive simpleModel blockW 0 0 [r1559W, rDep21W]
    31 0 rfl

/-- C6: on a successful `execute_transactions` run over a well-formed block
(equal senders/transactions lengths), there is exactly one receipt per
transaction, in block order: the i-th receipt's `tx_type` is the i-th
transaction's type. -/
theorem C6_receipts_order {σ δ β : Type} (spec : OpChainSpec)
    (m : EvmModel σ δ β) (block : BlockWithSenders) (td : Nat) (s : σ)
    (rs : List Receipt) (total : Nat) (s' : σ)
    (hlen : block.senders.length = block.transactions.length)
    (h : execute_transactions spec m block td s = .ok (rs, total, s')) :
    rs.length = block.transactions.length ∧
    ∀ (i : Nat) (hi : i < rs.length) (hj : i < block.transactions.length),
      (rs.get ⟨i, hi⟩).tx_type = (block.transactions.get ⟨i, hj⟩).txType := by
  obtain ⟨hl, hty⟩ := execLoop_ok_shape h
  have hzlen : block.transactions_with_sender.length
      = block.transactions.length := by
    simp [BlockWithSenders.transactions_with_sender, hlen]
  refine ⟨hl.trans hzlen, fun i hi hj => ?_⟩
  have hz : i < block.transactions_with_sender.length := by
    rw [hzlen]; exact hj
  exact (hty i hi hz).trans
    (congrArg Transaction.txType
      (zipGetSnd block.senders block.transactions i hz hj))

/-- Witness for C6: the run on `blockW` yields two receipts matching the two
transactions' types in order. -/
theorem C6_receipts_order_witness :
    ([r1559W, rDep21W] : List Receipt).length = blockW.transactions.length ∧
    ∀ (i : Nat) (hi : i < ([r1559W, rDep21W] : List Receipt).length)
      (hj : i < blockW.transactions.length),
      (([r1559W, rDep21W] : List Receipt).get ⟨i, hi⟩).tx_type
        = (blockW.transactions.get ⟨i, hj⟩).txType :=
  C6_receipts_order specAllActive simpleModel blockW 0 0 [r1559W, rDep21W]
    31 0 rfl rfl

/-- C7: `apply_post_execution_changes` applies the balance increments
computed from chain spec, block and total difficulty via
`increment_balances`; a failing application yields `IncrementBalanceFailed`
and a successful one returns the empty requests set. -/
theorem C7_post_execution {σ δ β : Type} (spec : OpChainSpec)
    (m : EvmModel σ δ β) (block : BlockWithSenders) (td : Nat) (s : σ) :
    (m.increment_balances s
        (m.post_block_balance_increments spec block td) = .error () →
      apply_post_execution_changes spec m block td s =
        .error .incrementBalanceFailed) ∧
    (∀ s₁, m.increment_balances s
        (m.post_block_balance_increments spec block td) = .ok s₁ →
      apply_post_execution_changes spec m block td s = .ok ([], s₁)) := by
  constructor
  · intro h
    simp only [apply_post_execution_changes, h]
  · intro s₁ h
    simp only [apply_post_execution_changes, h]

/-- Witness for C7: a failing increment application gives
`IncrementBalanceFailed`; a successful one returns no requests. -/
theorem C7_post_execution_witness :
    apply_post_execution_changes specAllActive incFailModel blockW 0 0 =
      .error .incrementBalanceFailed ∧
    apply_post_execution_changes specAllActive simpleModel blockW 0 0 =
      .ok ([], 0) :=
  ⟨(C7_post_execution specAllActive incFailModel blockW 0 0).1 rfl,
   (C7_post_execution specAllActive simpleModel blockW 0 0).2 0 rfl⟩

/-- C8: running the four phases once each, in order, is deterministic: two
runs on an identical block and identical starting state (with the same
deterministic collaborators) produce identical receipts, gas used,
requests and bundle. -/
theorem C8_deterministic {σ δ β : Type} (spec : OpChainSpec)
    (m : EvmModel σ δ β) (block₁ block₂ : BlockWithSenders) (td : Nat)
    (s₁ s₂ : σ) (hb : block₁ = block₂) (hs : s₁ = s₂) :
    runBlock spec m block₁ td s₁ = runBlock spec m block₂ td s₂ := by
  subst hb hs
  rfl

/-- Witness for C8: two runs on `blockW` from state 0 agree. -/
theorem C8_deterministic_witness :
    runBlock specAllActive simpleModel blockW 0 0 =
      runBlock specAllActive simpleModel blockW 0 0 :=
  C8_deterministic specAllActive simpleModel blockW blockW 0 0 0 rfl rfl

/-- When the incoming cumulative gas does not exceed the block gas limit,
`execStep` cannot report the subtraction underflow. -/
theorem execStep_no_underflow {σ δ β : Type} {spec : OpChainSpec}
    {m : EvmModel σ δ β} {env : EnvCfg} {cum : Nat} {s : σ} {sender : Nat}
    {tx : Transaction} (hcum : cum ≤ env.header.gas_limit) :
    execStep spec m env cum s sender tx ≠ .error .gasUnderflow := by
  intro h
  simp only [execStep] at h
  rw [if_neg (Nat.not_lt.mpr hcum)] at h
  split at h
  · simp at h
  split at h
  · simp at h
  split at h
  · rename_i e hdep
    simp only [Except.error.injEq] at h
    subst h
    obtain ⟨he, _⟩ := cacheDepositor_error_shape hdep
    cases he
  split at h
  · simp at h
  · cases h

/-- When the gas-limit check applies to the transaction (Regolith active or
the transaction is not a system transaction) and the VM never reports more
gas used than the transaction's gas limit, a successful `execStep` keeps
the cumulative gas within the block gas limit. -/
theorem execStep_ok_gas_bound {σ δ β : Type} {spec : OpChainSpec}
    {m : EvmModel σ δ β} {env : EnvCfg} {cum : Nat} {s : σ} {sender : Nat}
    {tx : Transaction} {r : Receipt} {c : Nat} {s₂ : σ}
    (hvm : ∀ (e : EnvCfg) (s0 : σ) (a : Nat) (t : Transaction)
      (res : ExecResult) (d : δ),
      m.transact e s0 a t = .ok (res, d) → res.gas_used ≤ t.gas_limit)
    (hcond : spec.isRegolithActive env.header.timestamp = true ∨
      tx.is_system_transaction = false)
    (hcum : cum ≤ env.header.gas_limit)
    (h : execStep spec m env cum s sender tx = .ok (r, c, s₂)) :
    c ≤ env.header.gas_limit := by
  simp only [execStep] at h
  rw [if_neg (Nat.not_lt.mpr hcum)] at h
  split at h
  · cases h
  rename_i hgas
  have hor : (spec.isRegolithActive env.header.timestamp ||
      !tx.is_system_transaction) = true := by
    rcases hcond with h' | h' <;> simp [h']
  have hle : tx.gas_limit ≤ env.header.gas_limit - cum := by
    by_contra hlt
    exact hgas (by simp [hor, Nat.lt_of_not_le hlt])
  split at h
  · cases h
  split at h
  · cases h
  rename_i depositor s₁ hdep
  split at h
  · cases h
  rename_i result st htr
  simp only [Except.ok.injEq, Prod.mk.injEq] at h
  obtain ⟨_, hc, _⟩ := h
  have := hvm env s₁ sender tx result st htr
  omega

/-- With the gas-limit check applying to every transaction of the list and
a VM respecting transaction gas limits, the loop started within the block
gas limit never reports the subtraction underflow. -/
theorem execLoop_no_underflow {σ δ β : Type} {spec : OpChainSpec}
    {m : EvmModel σ δ β} {env : EnvCfg}
    (hvm : ∀ (e : EnvCfg) (s0 : σ) (a : Nat) (t : Transaction)
      (res : ExecResult) (d : δ),
      m.transact e s0 a t = .ok (res, d) → res.gas_used ≤ t.gas_limit) :
    ∀ {l : List (Nat × Transaction)} {cum : Nat} {s : σ},
      cum ≤ env.header.gas_limit →
      (spec.isRegolithActive env.header.timestamp = true ∨
        ∀ p ∈ l, p.2.is_system_transaction = false) →
      execLoop spec m env cum s l ≠ .error .gasUnderflow
  | [], cum, s => by
    intro _ _ h
    cases h
  | (sender, tx) :: rest, cum, s => by
    intro hcum hsafe h
    simp only [execLoop] at h
    split at h
    · rename_i e hstep
      cases h
      exact execStep_no_underflow hcum hstep
    rename_i r cum' s₁ hstep
    split at h
    · rename_i e hloop
      cases h
      have hcond : spec.isRegolithActive env.header.timestamp = true ∨
          tx.is_system_transaction = false := by
        rcases hsafe with h' | h'
        · exact Or.inl h'
        · exact Or.inr (h' (sender, tx) (List.mem_cons_self _ _))
      have hcum' : cum' ≤ env.header.gas_limit :=
        execStep_ok_gas_bound hvm hcond hcum hstep
      have hsafe' : spec.isRegolithActive env.header.timestamp = true ∨
          ∀ p ∈ rest, p.2.is_system_transaction = false := by
        rcases hsafe with h' | h'
        · exact Or.inl h'
        · exact Or.inr fun p hp => h' p (List.mem_cons_of_mem _ hp)
      exact execLoop_no_underflow hvm hcum' hsafe' hloop
    · cases h

/-- `simpleModel`'s VM reports exactly the transaction's gas limit as gas
used, hence never more. -/
theorem simpleModel_transact_gas_le :
    ∀ (e : EnvCfg) (s0 a : Nat) (t : Transaction) (res : ExecResult)
      (d : Nat), simpleModel.transact e s0 a t = .ok (res, d) →
      res.gas_used ≤ t.gas_limit := by
  intro e s0 a t res d h
  simp only [simpleModel, Except.ok.injEq, Prod.mk.injEq] at h
  obtain ⟨h1, _⟩ := h
  rw [← h1]

/-- Counterexample for C9: pre-Regolith, the oversized system deposit
transaction of `blockSysW` is exempt from the gas-limit check and consumes
200 gas against a block gas limit of 100, so at the next iteration the
`u64` subtraction `gas_limit - cumulative_gas_used` underflows (the
distinguished `gasUnderflow` outcome of the model). -/
theorem C9_underflow_counterexample :
    blockSysW.header.gas_limit < 200 ∧
    execStep specPreForks simpleModel
      { header := blockSysW.header, totalDifficulty := 0 } 0 0 5 txSysBigW =
      .ok ({ tx_type := TxType.deposit, success := true,
             cumulative_gas_used := 200, logs := [], deposit_nonce := none,
             deposit_receipt_version := none }, 200, 0) ∧
    execute_transactions specPreForks simpleModel blockSysW 0 0 =
      .error .gasUnderflow :=
  ⟨by decide, rfl, rfl⟩

/-- C9 (amended): the subtraction `block.header.gas_limit -
cumulative_gas_used` never underflows — equivalently, the cumulative gas
never exceeds the block gas limit at the start of an iteration — provided
the VM never reports more gas used than a transaction's gas limit and the
gas-limit check applies to every transaction (Regolith active at the block
timestamp, or no transaction is a system transaction).  The pre-Regolith
system-transaction exemption breaks this invariant, as the counterexample
shows. -/
theorem C9_no_underflow_amended {σ δ β : Type} (spec : OpChainSpec)
    (m : EvmModel σ δ β) (block : BlockWithSenders) (td : Nat) (s : σ)
    (hvm : ∀ (e : EnvCfg) (s0 : σ) (a : Nat) (t : Transaction)
      (res : ExecResult) (d : δ),
      m.transact e s0 a t = .ok (res, d) → res.gas_used ≤ t.gas_limit)
    (hsafe : spec.isRegolithActive block.header.timestamp = true ∨
      ∀ t ∈ block.transactions, t.is_system_transaction = false) :
    execute_transactions spec m block td s ≠ .error .gasUnderflow := by
  unfold execute_transactions
  apply execLoop_no_underflow hvm (Nat.zero_le _)
  rcases hsafe with h | h
  · exact Or.inl h
  · exact Or.inr fun p hp => h p.2 (List.of_mem_zip hp).2

/-- Witness for C9 (amended): with Regolith active, the run on `blockW`
does not hit the underflow. -/
theorem C9_no_underflow_amended_witness :
    execute_transactions specAllActive simpleModel blockW 0 0 ≠
      .error .gasUnderflow :=
  C9_no_underflow_amended specAllActive simpleModel blockW 0 0
    simpleModel_transact_gas_le (Or.inl (by decide))
